import Mathlib

/-!
Verification development for the quota-aware TTS routing and usage-accounting
subsystem of the study-buddy application.

The definitions below are shallow embeddings of the TypeScript source:
* `sanitizeText` embeds the regex pipeline of `sanitizeText` in the
  text-to-speech edge function (the seven emoji-range removals, the lazy
  `**`/`*`/backtick delimiter replacements, the `#{1,6}\s` heading removal,
  the newline-run and whitespace-run collapses, and the final trim).
  Regex scanning is modelled character-by-character with an explicit fuel
  argument equal to the input length, so all functions are structurally
  recursive and evaluate inside the kernel.
* `checkAndTrackUsageCore` embeds `checkAndTrackUsage` (the subscription
  read, the pro/active/expiry/quota checks, and the absolute-value update
  of `tts_used`).  The returned pair carries the response and the stored
  subscription row after the call.
* `textToSpeech` embeds the request pipeline of the `serve` handler:
  sanitize, truncate at 2000 characters, usage check, lazy cache sweep,
  cache lookup, vendor call, cache insertion with the 100-entry bound.
* `routeDecision` / `backendsInvoked` embed the routing of
  `useSmartTTS.speak`; `fetchUsageInfo` embeds the client plan resolver
  including its error-result branch and its catch branch.
* `approveRequest` embeds the `approve_request` action of the
  manage-subscription function.
Timestamps are modelled as integer milliseconds; string lengths count
unicode scalar values.
-/

/-- The seven emoji code-point ranges removed by the seven leading
`replace` calls of `sanitizeText`. -/
def isEmojiChar (c : Char) : Bool :=
  (0x1F600 ≤ c.toNat && c.toNat ≤ 0x1F64F) ||
  (0x1F300 ≤ c.toNat && c.toNat ≤ 0x1F5FF) ||
  (0x1F680 ≤ c.toNat && c.toNat ≤ 0x1F6FF) ||
  (0x2600 ≤ c.toNat && c.toNat ≤ 0x26FF) ||
  (0x2700 ≤ c.toNat && c.toNat ≤ 0x27BF) ||
  (0x1F900 ≤ c.toNat && c.toNat ≤ 0x1F9FF) ||
  (0x1FA00 ≤ c.toNat && c.toNat ≤ 0x1FA6F)

def stripEmoji (l : List Char) : List Char :=
  l.filter (fun c => !(isEmojiChar c))

/-- JavaScript's regex character class for whitespace, used by the
source's whitespace-collapsing replace and its trim. -/
def isSpaceJS (c : Char) : Bool :=
  c.toNat = 0x09 || c.toNat = 0x0A || c.toNat = 0x0B || c.toNat = 0x0C ||
  c.toNat = 0x0D || c.toNat = 0x20 || c.toNat = 0xA0 || c.toNat = 0x1680 ||
  (0x2000 ≤ c.toNat && c.toNat ≤ 0x200A) ||
  c.toNat = 0x2028 || c.toNat = 0x2029 || c.toNat = 0x202F ||
  c.toNat = 0x205F || c.toNat = 0x3000 || c.toNat = 0xFEFF

/-- Group scan of the lazy regex for bold markers: after an opening pair of
asterisks, find the earliest closing pair; the dot in the lazy group does
not match a newline, so a newline before any closing pair means no match. -/
def findClose2 : List Char → Option (List Char × List Char)
  | [] => none
  | '*' :: '*' :: rest => some ([], rest)
  | c :: rest =>
    if c = '\n' then none
    else
      match findClose2 rest with
      | some (g, r) => some (c :: g, r)
      | none => none

/-- Global scan for the bold-marker replace.  Fuel is the input length;
each step consumes at least one character, so the fuel never runs out
when it starts at the length of the list. -/
def replaceBoldF : Nat → List Char → List Char
  | 0, l => l
  | _ + 1, [] => []
  | fuel + 1, '*' :: '*' :: rest =>
    match findClose2 rest with
    | some (g, r) => g ++ replaceBoldF fuel r
    | none => '*' :: replaceBoldF fuel ('*' :: rest)
  | fuel + 1, c :: rest => c :: replaceBoldF fuel rest

def replaceBold (l : List Char) : List Char := replaceBoldF l.length l

/-- Group scan for a single-character delimiter (the italic-marker and
code-marker replaces), stopping at the first newline. -/
def findClose1 (d : Char) : List Char → Option (List Char × List Char)
  | [] => none
  | c :: rest =>
    if c = d then some ([], rest)
    else if c = '\n' then none
    else
      match findClose1 d rest with
      | some (g, r) => some (c :: g, r)
      | none => none

def replaceDelim1F (d : Char) : Nat → List Char → List Char
  | 0, l => l
  | _ + 1, [] => []
  | fuel + 1, c :: rest =>
    if c = d then
      match findClose1 d rest with
      | some (g, r) => g ++ replaceDelim1F d fuel r
      | none => c :: replaceDelim1F d fuel rest
    else c :: replaceDelim1F d fuel rest

def replaceDelim1 (d : Char) (l : List Char) : List Char :=
  replaceDelim1F d l.length l

/-- Count the leading hash signs of a list and return the remainder. -/
def takeHashes : List Char → Nat × List Char
  | '#' :: rest =>
    let p := takeHashes rest
    (p.1 + 1, p.2)
  | l => (0, l)

/-- The heading-marker removal: one to six hashes followed by a whitespace
character are deleted (hashes and the whitespace); seven or more hashes do
not match at that position and the scanner advances one character. -/
def replaceHeadingF : Nat → List Char → List Char
  | 0, l => l
  | _ + 1, [] => []
  | fuel + 1, c :: rest =>
    if c = '#' then
      match takeHashes (c :: rest) with
      | (k, s :: r2) =>
        if k ≤ 6 then
          if isSpaceJS s then replaceHeadingF fuel r2
          else c :: replaceHeadingF fuel rest
        else c :: replaceHeadingF fuel rest
      | (_, []) => c :: replaceHeadingF fuel rest
    else c :: replaceHeadingF fuel rest

def replaceHeading (l : List Char) : List Char := replaceHeadingF l.length l

/-- Each maximal run of newline characters becomes a period and a space. -/
def replaceNewlinesF : Nat → List Char → List Char
  | 0, l => l
  | _ + 1, [] => []
  | fuel + 1, c :: rest =>
    if c = '\n' then
      '.' :: ' ' :: replaceNewlinesF fuel (rest.dropWhile (fun x => x = '\n'))
    else c :: replaceNewlinesF fuel rest

def replaceNewlines (l : List Char) : List Char := replaceNewlinesF l.length l

/-- Each maximal run of whitespace characters becomes a single space. -/
def collapseSpacesF : Nat → List Char → List Char
  | 0, l => l
  | _ + 1, [] => []
  | fuel + 1, c :: rest =>
    if isSpaceJS c then
      ' ' :: collapseSpacesF fuel (rest.dropWhile isSpaceJS)
    else c :: collapseSpacesF fuel rest

def collapseSpaces (l : List Char) : List Char := collapseSpacesF l.length l

def trimJS (l : List Char) : List Char :=
  ((l.dropWhile isSpaceJS).reverse.dropWhile isSpaceJS).reverse

def backtickChar : Char := Char.ofNat 96

/-- The full sanitizing pipeline of the text-to-speech edge function, in
source order: emoji removal, bold, italic, inline code, heading markers,
newline runs, whitespace runs, trim. -/
def sanitizeChars (l : List Char) : List Char :=
  trimJS (collapseSpaces (replaceNewlines (replaceHeading
    (replaceDelim1 backtickChar (replaceDelim1 '*' (replaceBold (stripEmoji l)))))))

def sanitizeText (s : String) : String := String.mk (sanitizeChars s.data)

example : sanitizeText "hello" = "hello" := by decide
example : sanitizeText "" = "" := by decide
example : sanitizeText "**bold** text" = "bold text" := by decide
example : sanitizeText "*a\nb*" = "*a. b*" := by decide
example : sanitizeText "*a. b*" = "a. b" := by decide

/-! ## Data model: subscriptions and usage accounting -/

inductive Plan
  | basic
  | pro
deriving DecidableEq, Repr

/-- A row of the `subscriptions` table (the columns this subsystem reads
and writes).  Timestamps are integer milliseconds; `end_date` is nullable. -/
structure Subscription where
  plan : Plan
  start_date : Int
  end_date : Option Int
  tts_used : Int
  tts_limit : Int
  is_active : Bool
deriving DecidableEq, Repr

/-- The `usageInfo` object built by the server's `checkAndTrackUsage`. -/
structure UsageInfo where
  plan : Plan
  ttsUsed : Int
  ttsLimit : Int
  ttsRemaining : Int
  canUsePremium : Bool
deriving DecidableEq, Repr

/-- The result object of `checkAndTrackUsage`. -/
structure UsageResult where
  canUse : Bool
  usageInfo : Option UsageInfo
  reason : Option String
deriving DecidableEq, Repr

/-- The source's expiry test: `sub.end_date && new Date(sub.end_date) < new Date()`. -/
def subExpired (sub : Subscription) (now : Int) : Bool :=
  match sub.end_date with
  | some d => decide (d < now)
  | none => false

/-- Embedding of `checkAndTrackUsage` for a successfully fetched
subscription row (lines 72-125 of the edge function): the
pro-and-active check, the expiry check, the quota check, and the
absolute-value update of `tts_used`.  The second component is the stored
subscription row after the call. -/
def checkAndTrackUsageCore (sub : Subscription) (textLength : Int) (now : Int) :
    UsageResult × Subscription :=
  let isPro := (decide (sub.plan = Plan.pro)) && sub.is_active
  let hasQuota := decide (sub.tts_used + textLength ≤ sub.tts_limit)
  if !isPro then
    ({ canUse := false, reason := some "Basic plan - use Web TTS",
       usageInfo := some { plan := Plan.basic, ttsUsed := sub.tts_used,
                           ttsLimit := sub.tts_limit,
                           ttsRemaining := sub.tts_limit - sub.tts_used,
                           canUsePremium := false } }, sub)
  else if subExpired sub now then
    ({ canUse := false, reason := some "Pro subscription expired",
       usageInfo := none }, sub)
  else if !hasQuota then
    ({ canUse := false, reason := some "TTS limit reached",
       usageInfo := some { plan := Plan.pro, ttsUsed := sub.tts_used,
                           ttsLimit := sub.tts_limit,
                           ttsRemaining := 0,
                           canUsePremium := false } }, sub)
  else
    let newTtsUsed := sub.tts_used + textLength
    ({ canUse := true, reason := none,
       usageInfo := some { plan := Plan.pro, ttsUsed := newTtsUsed,
                           ttsLimit := sub.tts_limit,
                           ttsRemaining := sub.tts_limit - newTtsUsed,
                           canUsePremium := decide (newTtsUsed < sub.tts_limit) } },
     { sub with tts_used := newTtsUsed })

/-- The ways the subscription fetch inside `checkAndTrackUsage` can go:
a row is returned, the query reports an error or no row, or an exception
is thrown (handled by the function's catch branch). -/
inductive UsageFetch
  | ok (sub : Subscription)
  | errorOrMissing
  | thrown
deriving DecidableEq, Repr

/-- Embedding of the whole of `checkAndTrackUsage`, including its
error branch (`No subscription found`) and its catch branch
(`Usage check failed`).  The second component is the stored row after the
call when one exists. -/
def checkAndTrackUsage (f : UsageFetch) (textLength : Int) (now : Int) :
    UsageResult × Option Subscription :=
  match f with
  | .ok sub =>
    let p := checkAndTrackUsageCore sub textLength now
    (p.1, some p.2)
  | .errorOrMissing =>
    ({ canUse := false, usageInfo := none, reason := some "No subscription found" }, none)
  | .thrown =>
    ({ canUse := false, usageInfo := none, reason := some "Usage check failed" }, none)

/-! ## Concurrency model for the ledger update

The source performs the quota check and the usage increment as two separate
store operations: a select, then an update writing the absolute value
`sub.tts_used + textLength` computed from its own read.  `seqTwoCalls` runs
two calls one after the other (each reads the row the previous call left);
`interleavedTwoCalls` runs the interleaving in which both selects happen
before either update, with call 1's update applied before call 2's. -/

def seqTwoCalls (sub : Subscription) (len1 len2 now : Int) :
    Bool × Bool × Subscription :=
  let p1 := checkAndTrackUsageCore sub len1 now
  let p2 := checkAndTrackUsageCore p1.2 len2 now
  (p1.1.canUse, p2.1.canUse, p2.2)

def interleavedTwoCalls (sub : Subscription) (len1 len2 now : Int) :
    Bool × Bool × Subscription :=
  let p1 := checkAndTrackUsageCore sub len1 now
  let p2 := checkAndTrackUsageCore sub len2 now
  let store1 := p1.2
  let store2 := if p2.1.canUse then { sub with tts_used := sub.tts_used + len2 } else store1
  (p1.1.canUse, p2.1.canUse, store2)

/-! ## The server-side audio cache and the text-to-speech handler -/

def CACHE_TTL_MS : Int := 30 * 60 * 1000

/-- A server cache value: base64 audio plus its creation timestamp. -/
structure CacheEntry where
  audio : String
  timestamp : Int
deriving DecidableEq, Repr

/-- The module-level `audioCache` map, in insertion order. -/
abbrev ServerCache := List (String × CacheEntry)

/-- Embedding of `cleanCache`: drop every entry with
`now - value.timestamp > CACHE_TTL_MS`. -/
def cleanCache (now : Int) (c : ServerCache) : ServerCache :=
  c.filter (fun e => decide (now - e.2.timestamp ≤ CACHE_TTL_MS))

def cacheLookup (key : String) (c : ServerCache) : Option CacheEntry :=
  (c.find? (fun e => e.1 == key)).map (fun e => e.2)

/-- Embedding of `containsHindi`: a Devanagari code point occurs in the text. -/
def containsHindi (s : String) : Bool :=
  s.data.any (fun c => 0x900 ≤ c.toNat && c.toNat ≤ 0x97F)

/-- ASCII lower-casing, the fragment of `toLowerCase` the cache keys of
this system exercise. -/
def toLowerChars (l : List Char) : List Char :=
  l.map (fun c => if 65 ≤ c.toNat && c.toNat ≤ 90 then Char.ofNat (c.toNat + 32) else c)

/-- Embedding of `getCacheKey`: the sanitized, lower-cased text truncated
to 500 characters, prefixed by the model and voice ids. -/
def getCacheKey (text voiceId model : String) : String :=
  let normalizedText := String.mk ((toLowerChars (sanitizeText text).data).take 500)
  model ++ ":" ++ voiceId ++ ":" ++ normalizedText

/-- The handler's truncation of the sanitized text at 2000 characters,
appending an ellipsis marker. -/
def truncatedTextOf (cleanText : String) : String :=
  if cleanText.length > 2000 then String.mk (cleanText.data.take 2000) ++ "..."
  else cleanText

/-- What the Speechify call can come back with: a JSON body carrying
`audio_data`, a non-success HTTP status, or a success body missing
`audio_data`. -/
inductive VendorOutcome
  | ok (audio_data : String)
  | httpError (status : Int)
  | missingAudioData
deriving DecidableEq, Repr

/-- The distinct responses of the `serve` handler on the paths this
development reasons about. -/
inductive ServeResponse
  | noSpeakableText
  | fallbackToWebTTS (reason : Option String) (usageInfo : Option UsageInfo)
  | audioOk (audio : String) (cached : Bool) (usageInfo : Option UsageInfo)
  | vendorError (status : Int)
  | invalidVendorResponse
deriving DecidableEq, Repr

/-- The synthesis tail of the handler, entered after the usage check:
lazy cache sweep, cache lookup, vendor call, cache insertion with the
oldest-entry eviction once the size exceeds 100. -/
def serveSynthesis (truncated voiceId : String) (usageInfo : Option UsageInfo)
    (store : Option Subscription) (now : Int) (cache : ServerCache)
    (vendor : VendorOutcome) :
    ServeResponse × Option Subscription × ServerCache :=
  let model := "simba-multilingual"
  let cache1 := cleanCache now cache
  let key := getCacheKey truncated voiceId model
  match cacheLookup key cache1 with
  | some e => (.audioOk e.audio true usageInfo, store, cache1)
  | none =>
    match vendor with
    | .httpError s => (.vendorError s, store, cache1)
    | .missingAudioData => (.invalidVendorResponse, store, cache1)
    | .ok audio =>
      let cache2 := cache1 ++ [(key, { audio := audio, timestamp := now })]
      let cache3 := if cache2.length > 100 then cache2.drop 1 else cache2
      (.audioOk audio false usageInfo, store, cache3)

/-- Embedding of the request pipeline of the text-to-speech `serve`
handler: sanitize, reject unspeakable text, truncate, run the usage check
when a student id is present (returning the fallback signal on denial),
then synthesize.  `student` is the stored subscription row for the request's
student id (`none` when the request carries no student id, in which case the
usage check is skipped).  The second component is the stored row after the
request, the third the server cache after the request. -/
def textToSpeech (text voiceId : String) (student : Option Subscription)
    (now : Int) (cache : ServerCache) (vendor : VendorOutcome) :
    ServeResponse × Option Subscription × ServerCache :=
  let cleanText := sanitizeText text
  if cleanText.length = 0 then (.noSpeakableText, student, cache)
  else
    let truncated := truncatedTextOf cleanText
    match student with
    | some sub =>
      let p := checkAndTrackUsageCore sub (truncated.length : Int) now
      if !p.1.canUse then
        (.fallbackToWebTTS p.1.reason p.1.usageInfo, some p.2, cache)
      else
        serveSynthesis truncated voiceId p.1.usageInfo (some p.2) now cache vendor
    | none => serveSynthesis truncated voiceId none none now cache vendor

/-! ## The client: routing, plan resolution, client cache -/

inductive Backend
  | premium
  | web
deriving DecidableEq, Repr

/-- The client's plan/usage read model (`TTSUsageInfo` in `useSmartTTS`). -/
structure TTSUsageInfo where
  plan : Plan
  ttsUsed : Int
  ttsLimit : Int
  ttsRemaining : Int
  canUsePremium : Bool
  usingPremium : Bool
deriving DecidableEq, Repr

/-- Embedding of the routing decision of `useSmartTTS.speak` (the
`usePremium` flag): no student id or unresolved plan status routes to the
web fallback; a basic plan routes to the web fallback; a pro plan attempts
premium only when `canUsePremium` holds and the remaining quota covers the
text length. -/
def routeDecision (studentKnown : Bool) (usageInfo : Option TTSUsageInfo)
    (textLength : Int) : Bool :=
  if !studentKnown then false
  else
    match usageInfo with
    | none => false
    | some u =>
      match u.plan with
      | .basic => false
      | .pro => u.canUsePremium && decide (u.ttsRemaining ≥ textLength)

/-- The backends `speak` invokes, in order: premium when routed there, and
the web fallback after a premium failure (`speakPremium` returning false);
otherwise only the web fallback. -/
def backendsInvoked (usePremium premiumOk : Bool) : List Backend :=
  if usePremium then
    if premiumOk then [Backend.premium] else [Backend.premium, Backend.web]
  else [Backend.web]

/-- How the `manage-subscription` invoke inside `fetchUsageInfo` can go:
a response whose `subscription` field is a row or the server-substituted
default (modelled by `none`), an error result, or a thrown exception. -/
inductive InvokeOutcome
  | ok (sub : Option Subscription)
  | errResult
  | thrown
deriving DecidableEq, Repr

/-- The safe default `fetchUsageInfo` stores when the invoke reports an
error: basic plan, premium disabled. -/
def defaultUsageInfo : TTSUsageInfo :=
  { plan := Plan.basic, ttsUsed := 0, ttsLimit := 150000, ttsRemaining := 150000,
    canUsePremium := false, usingPremium := false }

/-- Embedding of `useSmartTTS.fetchUsageInfo`: on an error result it stores
the safe default; on a successful response it computes `canUsePremium` from
the row (the server substitutes a basic default object when the student has
no row, modelled by the `none` case); a thrown exception is caught, logged,
and leaves the previously stored plan status unchanged. -/
def fetchUsageInfo (outcome : InvokeOutcome) (prev : Option TTSUsageInfo)
    (now : Int) : Option TTSUsageInfo :=
  match outcome with
  | .errResult => some defaultUsageInfo
  | .thrown => prev
  | .ok none => some defaultUsageInfo
  | .ok (some sub) =>
    let ttsLimit := if sub.tts_limit = 0 then 150000 else sub.tts_limit
    let expired := subExpired sub now
    let canUse := (decide (sub.plan = Plan.pro)) && sub.is_active && !expired &&
      decide (sub.tts_used < ttsLimit)
    some { plan := sub.plan, ttsUsed := sub.tts_used, ttsLimit := ttsLimit,
           ttsRemaining := max 0 (ttsLimit - sub.tts_used),
           canUsePremium := canUse, usingPremium := canUse }

/-- The client audio cache (`clientAudioCache: Map<string, string>`): the
stored value is only the audio data URL.  The integer component is a ghost
creation timestamp recording when the entry was inserted; the source stores
no timestamp, so lookups cannot and do not consult it. -/
abbrev ClientCache := List (String × String × Int)

/-- Does the pattern occur as a leading segment of the list? -/
def startsWithChars : List Char → List Char → Bool
  | [], _ => true
  | _ :: _, [] => false
  | p :: ps, c :: cs => p = c && startsWithChars ps cs

/-- Does the pattern occur as a contiguous segment anywhere in the list?
This models the JavaScript `includes` substring test. -/
def containsSeg (pat : List Char) : List Char → Bool
  | [] => startsWithChars pat []
  | c :: rest => startsWithChars pat (c :: rest) || containsSeg pat rest

/-- Embedding of the cache read in `speakPremium`: look the key up, treat a
value containing the substring `audio_data` as corrupted (deleted, so a
miss), and otherwise return the hit.  No age check exists on this path. -/
def clientCacheGet (key : String) (c : ClientCache) : Option String :=
  match c.find? (fun e => e.1 == key) with
  | some e => if containsSeg "audio_data".data e.2.1.data then none else some e.2.1
  | none => none

/-! ## The approve-upgrade action -/

inductive ReqStatus
  | pending
  | approved
  | rejected
  | blocked
deriving DecidableEq, Repr

structure UpgradeRequest where
  student_id : String
  status : ReqStatus
deriving DecidableEq, Repr

inductive ApproveOutcome
  | invalidSession
  | notFound
  | unauthorized
  | approvedOk
deriving DecidableEq, Repr

def DAY_MS : Int := 24 * 60 * 60 * 1000

/-- Embedding of the `approve_request` action of `manage-subscription`:
after session validation, the request must exist and be pending and the
student must belong to the school; then the request becomes approved and
the student's subscription is set to plan pro, usage 0, a start date of now
and an end date 30 days out, active.  The result carries the outcome, the
request status after the call, and the subscription row after the call. -/
def approveRequest (sessionValid : Bool) (req : Option UpgradeRequest)
    (studentSchool : Option String) (schoolUuid : String)
    (sub : Subscription) (now : Int) :
    ApproveOutcome × Option ReqStatus × Subscription :=
  if !sessionValid then (.invalidSession, req.map (fun r => r.status), sub)
  else
    match req with
    | none => (.notFound, none, sub)
    | some r =>
      if r.status ≠ ReqStatus.pending then (.notFound, some r.status, sub)
      else if studentSchool ≠ some schoolUuid then (.unauthorized, some r.status, sub)
      else
        (.approvedOk, some ReqStatus.approved,
         { plan := Plan.pro, start_date := now, end_date := some (now + 30 * DAY_MS),
           tts_used := 0, tts_limit := sub.tts_limit, is_active := true })

/-! ## Helper lemmas about the usage ledger -/

lemma subExpired_false_iff (sub : Subscription) (now : Int) :
    subExpired sub now = false ↔ ∀ d, sub.end_date = some d → ¬ d < now := by
  cases h : sub.end_date <;> simp [subExpired, h]

lemma core_grant_iff (sub : Subscription) (len now : Int) :
    (checkAndTrackUsageCore sub len now).1.canUse = true ↔
      (sub.plan = Plan.pro ∧ sub.is_active = true ∧ subExpired sub now = false ∧
       sub.tts_used + len ≤ sub.tts_limit) := by
  rcases sub with ⟨plan, sd, ed, used, limit, active⟩
  cases plan <;> cases active <;>
    by_cases hX : subExpired ⟨Plan.pro, sd, ed, used, limit, true⟩ now = true <;>
      by_cases hQ : used + len ≤ limit <;>
        simp_all [checkAndTrackUsageCore]

lemma core_grant_store (sub : Subscription) (len now : Int)
    (h : (checkAndTrackUsageCore sub len now).1.canUse = true) :
    (checkAndTrackUsageCore sub len now).2 = { sub with tts_used := sub.tts_used + len } := by
  rcases sub with ⟨plan, sd, ed, used, limit, active⟩
  cases plan <;> cases active <;>
    by_cases hX : subExpired ⟨Plan.pro, sd, ed, used, limit, true⟩ now = true <;>
      by_cases hQ : used + len ≤ limit <;>
        simp_all [checkAndTrackUsageCore]

lemma core_deny_store (sub : Subscription) (len now : Int)
    (h : (checkAndTrackUsageCore sub len now).1.canUse = false) :
    (checkAndTrackUsageCore sub len now).2 = sub := by
  rcases sub with ⟨plan, sd, ed, used, limit, active⟩
  cases plan <;> cases active <;>
    by_cases hX : subExpired ⟨Plan.pro, sd, ed, used, limit, true⟩ now = true <;>
      by_cases hQ : used + len ≤ limit <;>
        simp_all [checkAndTrackUsageCore]

lemma core_grant_report (sub : Subscription) (len now : Int)
    (h : (checkAndTrackUsageCore sub len now).1.canUse = true) :
    (checkAndTrackUsageCore sub len now).1.usageInfo.map UsageInfo.ttsUsed =
      some (sub.tts_used + len) := by
  rcases sub with ⟨plan, sd, ed, used, limit, active⟩
  cases plan <;> cases active <;>
    by_cases hX : subExpired ⟨Plan.pro, sd, ed, used, limit, true⟩ now = true <;>
      by_cases hQ : used + len ≤ limit <;>
        simp_all [checkAndTrackUsageCore]

lemma core_deny_reason (sub : Subscription) (len now : Int)
    (h : (checkAndTrackUsageCore sub len now).1.canUse = false) :
    (checkAndTrackUsageCore sub len now).1.reason ≠ none := by
  rcases sub with ⟨plan, sd, ed, used, limit, active⟩
  cases plan <;> cases active <;>
    by_cases hX : subExpired ⟨Plan.pro, sd, ed, used, limit, true⟩ now = true <;>
      by_cases hQ : used + len ≤ limit <;>
        simp_all [checkAndTrackUsageCore]

/-! ## Claim theorems -/

/-- C2: `checkAndTrackUsage` reports granted exactly when the subscription
has plan pro, is active, is not past its end date, and the current usage
plus the requested character count fits the limit; a grant increments the
stored `tts_used` by exactly the character count (one update per call) and
reports the post-increment usage; a denial carries a reason. -/
theorem checkAndTrackUsage_grant_spec (sub : Subscription) (len now : Int) :
    ((checkAndTrackUsageCore sub len now).1.canUse = true ↔
      (sub.plan = Plan.pro ∧ sub.is_active = true ∧
       (∀ d, sub.end_date = some d → ¬ d < now) ∧
       sub.tts_used + len ≤ sub.tts_limit)) ∧
    ((checkAndTrackUsageCore sub len now).1.canUse = true →
      (checkAndTrackUsageCore sub len now).2.tts_used = sub.tts_used + len ∧
      (checkAndTrackUsageCore sub len now).1.usageInfo.map UsageInfo.ttsUsed =
        some (sub.tts_used + len)) ∧
    ((checkAndTrackUsageCore sub len now).1.canUse = false →
      (checkAndTrackUsageCore sub len now).1.reason ≠ none) := by
  refine ⟨?_, fun h => ⟨?_, core_grant_report sub len now h⟩, core_deny_reason sub len now⟩
  · rw [core_grant_iff, ← subExpired_false_iff]
  · rw [core_grant_store sub len now h]

/-- Witness for C2, Scenario C: a pro student with usage 0 and limit
150000 requesting 5 characters is granted and ends with `tts_used` 5. -/
theorem checkAndTrackUsage_grant_spec_witness :
    (checkAndTrackUsageCore
      { plan := Plan.pro, start_date := 0, end_date := none, tts_used := 0,
        tts_limit := 150000, is_active := true } 5 0).1.canUse = true ∧
    (checkAndTrackUsageCore
      { plan := Plan.pro, start_date := 0, end_date := none, tts_used := 0,
        tts_limit := 150000, is_active := true } 5 0).2.tts_used = 5 := by
  have h := checkAndTrackUsage_grant_spec
    { plan := Plan.pro, start_date := 0, end_date := none, tts_used := 0,
      tts_limit := 150000, is_active := true } 5 0
  have hg := h.1.mpr ⟨rfl, rfl, by simp, by decide⟩
  refine ⟨hg, ?_⟩
  have := (h.2.1 hg).1
  simpa using this

/-- C3: a denied request leaves the stored usage counter untouched. -/
theorem checkAndTrackUsage_denial_leaves_usage (sub : Subscription) (len now : Int)
    (h : (checkAndTrackUsageCore sub len now).1.canUse = false) :
    (checkAndTrackUsageCore sub len now).2 = sub :=
  core_deny_store sub len now h

/-- Witness for C3, Scenario B: a pro student with usage 149995 and limit
150000 requesting 10 characters is denied and `tts_used` stays 149995. -/
theorem checkAndTrackUsage_denial_leaves_usage_witness :
    (checkAndTrackUsageCore
      { plan := Plan.pro, start_date := 0, end_date := none, tts_used := 149995,
        tts_limit := 150000, is_active := true } 10 0).1.canUse = false ∧
    (checkAndTrackUsageCore
      { plan := Plan.pro, start_date := 0, end_date := none, tts_used := 149995,
        tts_limit := 150000, is_active := true } 10 0).2.tts_used = 149995 := by
  have h := checkAndTrackUsage_denial_leaves_usage
    { plan := Plan.pro, start_date := 0, end_date := none, tts_used := 149995,
      tts_limit := 150000, is_active := true } 10 0 (by decide)
  exact ⟨by decide, by rw [h]⟩

/-- C4 counterexample: a pro student has 5 characters of quota left
(usage 149995 of 150000) and two 3-character calls — combined length 6
exceeding the remaining quota — run concurrently.  In the interleaving of
the code's select-then-update sequences where both selects precede either
update, both calls are granted, and the second absolute-value update
overwrites the first, storing 149998: the check and increment are not one
atomic storage operation. -/
theorem checkAndTrackUsage_interleaved_double_grant :
    (interleavedTwoCalls
      { plan := Plan.pro, start_date := 0, end_date := none, tts_used := 149995,
        tts_limit := 150000, is_active := true } 3 3 0).1 = true ∧
    (interleavedTwoCalls
      { plan := Plan.pro, start_date := 0, end_date := none, tts_used := 149995,
        tts_limit := 150000, is_active := true } 3 3 0).2.1 = true ∧
    (149995 : Int) + 3 + 3 > 150000 ∧
    (interleavedTwoCalls
      { plan := Plan.pro, start_date := 0, end_date := none, tts_used := 149995,
        tts_limit := 150000, is_active := true } 3 3 0).2.2.tts_used = 149998 := by
  decide

/-- C4 amended: the quota check and usage increment are two separate store
round-trips (a select, then an update writing an absolute value computed
from that select).  In the interleaving where both calls read before
either writes, each grant decision is taken against the initial snapshot
alone; when both are granted, the final stored usage reflects only the
second call's increment (the first write is lost).  Only under serialized
execution is at most one of two calls granted when their combined length
exceeds the remaining quota. -/
theorem checkAndTrackUsage_two_round_trips (sub : Subscription) (len1 len2 now : Int) :
    ((interleavedTwoCalls sub len1 len2 now).1 =
       (checkAndTrackUsageCore sub len1 now).1.canUse ∧
     (interleavedTwoCalls sub len1 len2 now).2.1 =
       (checkAndTrackUsageCore sub len2 now).1.canUse) ∧
    ((interleavedTwoCalls sub len1 len2 now).1 = true →
     (interleavedTwoCalls sub len1 len2 now).2.1 = true →
     (interleavedTwoCalls sub len1 len2 now).2.2.tts_used = sub.tts_used + len2) ∧
    (sub.tts_used + len1 + len2 > sub.tts_limit →
     ¬ ((seqTwoCalls sub len1 len2 now).1 = true ∧
        (seqTwoCalls sub len1 len2 now).2.1 = true)) := by
  refine ⟨⟨rfl, rfl⟩, fun _ h2 => ?_, fun hover ⟨hs1, hs2⟩ => ?_⟩
  · have h2' : (checkAndTrackUsageCore sub len2 now).1.canUse = true := h2
    simp [interleavedTwoCalls, h2']
  · have hs1' : (checkAndTrackUsageCore sub len1 now).1.canUse = true := hs1
    have hs2' :
        (checkAndTrackUsageCore (checkAndTrackUsageCore sub len1 now).2 len2 now).1.canUse =
          true := hs2
    have h1' := core_grant_store sub len1 now hs1'
    have h2' := (core_grant_iff _ len2 now).mp hs2'
    rw [h1'] at h2'
    simp only [] at h2'
    omega

/-- Witness for C4 amended, at the double-grant input: both interleaved
grants match the snapshot decisions, the lost update leaves 149998, and
the serialized run refuses the second call. -/
theorem checkAndTrackUsage_two_round_trips_witness :
    (interleavedTwoCalls
      { plan := Plan.pro, start_date := 0, end_date := none, tts_used := 149995,
        tts_limit := 150000, is_active := true } 3 3 0).2.2.tts_used = 149995 + 3 ∧
    ¬ ((seqTwoCalls
        { plan := Plan.pro, start_date := 0, end_date := none, tts_used := 149995,
          tts_limit := 150000, is_active := true } 3 3 0).1 = true ∧
       (seqTwoCalls
        { plan := Plan.pro, start_date := 0, end_date := none, tts_used := 149995,
          tts_limit := 150000, is_active := true } 3 3 0).2.1 = true) := by
  have h := checkAndTrackUsage_two_round_trips
    { plan := Plan.pro, start_date := 0, end_date := none, tts_used := 149995,
      tts_limit := 150000, is_active := true } 3 3 0
  exact ⟨h.2.1 (by decide) (by decide), h.2.2 (by decide)⟩

/-- C5: when the resolved plan is basic, `useSmartTTS.speak` routes to the
web fallback and never invokes the premium backend, whatever the text
length and whatever the premium attempt would have returned. -/
theorem basic_never_premium (sid : Bool) (u : TTSUsageInfo) (len : Int)
    (premiumOk : Bool) (h : u.plan = Plan.basic) :
    routeDecision sid (some u) len = false ∧
    Backend.premium ∉ backendsInvoked (routeDecision sid (some u) len) premiumOk := by
  have hr : routeDecision sid (some u) len = false := by
    cases sid <;> simp [routeDecision, h]
  refine ⟨hr, ?_⟩
  rw [hr]
  simp [backendsInvoked]

/-- Witness for C5: a basic-plan status (even one erroneously marked
premium-capable) with a huge text still routes to the web fallback. -/
theorem basic_never_premium_witness :
    routeDecision true
      (some { plan := Plan.basic, ttsUsed := 0, ttsLimit := 150000,
              ttsRemaining := 150000, canUsePremium := true, usingPremium := true })
      999999 = false ∧
    Backend.premium ∉ backendsInvoked
      (routeDecision true
        (some { plan := Plan.basic, ttsUsed := 0, ttsLimit := 150000,
                ttsRemaining := 150000, canUsePremium := true, usingPremium := true })
        999999) false :=
  basic_never_premium true
    { plan := Plan.basic, ttsUsed := 0, ttsLimit := 150000,
      ttsRemaining := 150000, canUsePremium := true, usingPremium := true }
    999999 false rfl

/-- C6 counterexample: when the subscription fetch fails by throwing (the
catch branch of `fetchUsageInfo`), the resolver does not store the safe
default — it leaves the previously cached plan status in place, here a
pro status that still reports `canUsePremium = true`. -/
theorem fetchUsageInfo_thrown_not_default :
    fetchUsageInfo InvokeOutcome.thrown
      (some { plan := Plan.pro, ttsUsed := 10, ttsLimit := 150000,
              ttsRemaining := 149990, canUsePremium := true, usingPremium := true })
      0 ≠ some defaultUsageInfo ∧
    (fetchUsageInfo InvokeOutcome.thrown
      (some { plan := Plan.pro, ttsUsed := 10, ttsLimit := 150000,
              ttsRemaining := 149990, canUsePremium := true, usingPremium := true })
      0).map TTSUsageInfo.canUsePremium = some true := by
  decide

/-- C6 amended: a fetch failure reported through the invoke's error result
makes the resolver store the safe default (plan basic, premium disabled);
a thrown exception is caught rather than raised but leaves the previously
stored plan status unchanged (null on first load, so routing still falls
back); and the server-side usage check fails closed on its own exceptions,
reporting the request not grantable. -/
theorem fetchUsageInfo_fail_paths (prev : Option TTSUsageInfo) (now len : Int) :
    fetchUsageInfo InvokeOutcome.errResult prev now = some defaultUsageInfo ∧
    defaultUsageInfo.plan = Plan.basic ∧
    defaultUsageInfo.canUsePremium = false ∧
    fetchUsageInfo InvokeOutcome.thrown prev now = prev ∧
    (checkAndTrackUsage UsageFetch.thrown len now).1.canUse = false :=
  ⟨rfl, rfl, rfl, rfl, rfl⟩

/-- C7 counterexample: the client audio cache stores no creation
timestamps, so its get has no sweep and returns an entry long past the
30-minute TTL as a hit — here one whose ghost insertion time is 0, read
when more than 30 minutes have elapsed. -/
theorem clientCache_stale_hit :
    clientCacheGet "k" [("k", "AUDIO", 0)] = some "AUDIO" ∧
    (1800001 : Int) - 0 > CACHE_TTL_MS := by
  decide

/-- C7 amended: the server-side cache sweeps lazily on each get, so an
entry older than the 30-minute TTL is never returned as a server-side hit;
the client-side cache keeps no timestamps, and its get is entirely
independent of the entry's age — an uncorrupted entry is returned however
old it is. -/
theorem cacheGet_ttl_spec :
    (∀ (now : Int) (key : String) (c : ServerCache) (e : CacheEntry),
        cacheLookup key (cleanCache now c) = some e →
        now - e.timestamp ≤ CACHE_TTL_MS) ∧
    (∀ (key a : String) (t t' : Int),
        clientCacheGet key [(key, a, t)] = clientCacheGet key [(key, a, t')]) := by
  constructor
  · intro now key c e h
    rcases hf : (cleanCache now c).find? (fun x => x.1 == key) with _ | x
    · simp [cacheLookup, hf] at h
    · have hx : x ∈ cleanCache now c := List.mem_of_find?_eq_some hf
      have hk : decide (now - x.2.timestamp ≤ CACHE_TTL_MS) = true :=
        (List.mem_filter.mp hx).2
      have he : x.2 = e := by simpa [cacheLookup, hf] using h
      rw [← he]
      exact of_decide_eq_true hk
  · intro key a t t'
    simp [clientCacheGet]

/-- Witness for C7 amended: a fresh server entry is readable and the TTL
bound holds for it; two client entries differing only in ghost age give
the same lookup result. -/
theorem cacheGet_ttl_spec_witness :
    (100 : Int) - 0 ≤ CACHE_TTL_MS ∧
    clientCacheGet "k" [("k", "A", 7)] = clientCacheGet "k" [("k", "A", 9)] :=
  ⟨cacheGet_ttl_spec.1 100 "k" [("k", { audio := "A", timestamp := 0 })]
      { audio := "A", timestamp := 0 } (by decide),
   cacheGet_ttl_spec.2 "k" "A" 7 9⟩

/-- C8: approving a pending upgrade request (valid school session, request
pending, student in the school) sets the subscription to plan pro, resets
`tts_used` to 0, and sets the end date to exactly 30 days after the
approval time; the request becomes approved. -/
theorem approveRequest_activates_pro (sv : Bool) (r : UpgradeRequest)
    (sch : Option String) (uuid : String) (sub : Subscription) (now : Int)
    (h1 : sv = true) (h2 : r.status = ReqStatus.pending) (h3 : sch = some uuid) :
    (approveRequest sv (some r) sch uuid sub now).1 = ApproveOutcome.approvedOk ∧
    (approveRequest sv (some r) sch uuid sub now).2.1 = some ReqStatus.approved ∧
    (approveRequest sv (some r) sch uuid sub now).2.2.plan = Plan.pro ∧
    (approveRequest sv (some r) sch uuid sub now).2.2.tts_used = 0 ∧
    (approveRequest sv (some r) sch uuid sub now).2.2.end_date =
      some (now + 30 * DAY_MS) ∧
    (approveRequest sv (some r) sch uuid sub now).2.2.is_active = true := by
  subst h1 h3
  simp [approveRequest, h2]

/-- Witness for C8: a concrete pending request approved at time 1000 ends
with plan pro, usage 0 and end date 1000 plus 30 days. -/
theorem approveRequest_activates_pro_witness :
    (approveRequest true (some { student_id := "s1", status := ReqStatus.pending })
      (some "school1") "school1"
      { plan := Plan.basic, start_date := 0, end_date := none, tts_used := 4321,
        tts_limit := 150000, is_active := true } 1000).2.2.plan = Plan.pro ∧
    (approveRequest true (some { student_id := "s1", status := ReqStatus.pending })
      (some "school1") "school1"
      { plan := Plan.basic, start_date := 0, end_date := none, tts_used := 4321,
        tts_limit := 150000, is_active := true } 1000).2.2.tts_used = 0 ∧
    (approveRequest true (some { student_id := "s1", status := ReqStatus.pending })
      (some "school1") "school1"
      { plan := Plan.basic, start_date := 0, end_date := none, tts_used := 4321,
        tts_limit := 150000, is_active := true } 1000).2.2.end_date =
      some (1000 + 30 * DAY_MS) := by
  have h := approveRequest_activates_pro true
    { student_id := "s1", status := ReqStatus.pending } (some "school1") "school1"
    { plan := Plan.basic, start_date := 0, end_date := none, tts_used := 4321,
      tts_limit := 150000, is_active := true } 1000 rfl rfl rfl
  exact ⟨h.2.2.1, h.2.2.2.1, h.2.2.2.2.1⟩

/-- C9 counterexample: `sanitizeText` is not idempotent.  In the input the
asterisk pair spans a newline, which the lazy regex dot cannot cross, so
the first pass keeps both asterisks while replacing the newline with a
period and a space; the second pass then finds a closing asterisk on the
same line and strips the pair. -/
theorem sanitizeText_not_idempotent :
    sanitizeText (sanitizeText "*a\nb*") ≠ sanitizeText "*a\nb*" := by
  decide

/-- C9 amended: `sanitizeText` is total (modelled as a Lean function it
cannot raise) and returns the empty string on the empty string, but it is
not idempotent on every input: a second application can strip delimiter
pairs the first pass could not match. -/
theorem sanitizeText_empty_not_idempotent :
    sanitizeText "" = "" ∧
    ∃ t, sanitizeText (sanitizeText t) ≠ sanitizeText t :=
  ⟨rfl, ⟨"*x\ny*", by decide⟩⟩

/-- C1 counterexample: a pro student with usage 0 requests the 5-character
text hello; the usage check grants and commits `tts_used = 5`, then the
vendor call fails with an authentication error, and the handler answers
with the vendor's error status while the committed increment stays —
`tts_used` does not remain unchanged. -/
theorem vendorFailure_usage_changed :
    (textToSpeech "hello" "henry"
      (some { plan := Plan.pro, start_date := 0, end_date := none, tts_used := 0,
              tts_limit := 150000, is_active := true })
      0 [] (VendorOutcome.httpError 401)).1 = ServeResponse.vendorError 401 ∧
    ((textToSpeech "hello" "henry"
      (some { plan := Plan.pro, start_date := 0, end_date := none, tts_used := 0,
              tts_limit := 150000, is_active := true })
      0 [] (VendorOutcome.httpError 401)).2.1.map Subscription.tts_used) = some 5 := by
  decide

/-- C1 amended: for a granted premium request whose vendor call fails, the
usage increment has already been committed at grant time and is not rolled
back — `tts_used` ends at the prior usage plus the truncated text length —
and the handler returns the vendor's error status; the client router then
retries the utterance on the web fallback (a failed premium attempt always
invokes the web backend), so the failure is not user-visible as a hard
error by itself. -/
theorem vendorFailure_falls_back_billed (text voiceId : String) (sub : Subscription)
    (now status : Int) (cache : ServerCache)
    (hne : ¬ (sanitizeText text).length = 0)
    (hgrant : (checkAndTrackUsageCore sub
      ((truncatedTextOf (sanitizeText text)).length : Int) now).1.canUse = true)
    (hmiss : cacheLookup
      (getCacheKey (truncatedTextOf (sanitizeText text)) voiceId "simba-multilingual")
      (cleanCache now cache) = none) :
    (textToSpeech text voiceId (some sub) now cache (VendorOutcome.httpError status)).1 =
      ServeResponse.vendorError status ∧
    ((textToSpeech text voiceId (some sub) now cache
        (VendorOutcome.httpError status)).2.1.map Subscription.tts_used) =
      some (sub.tts_used + (truncatedTextOf (sanitizeText text)).length) ∧
    backendsInvoked true false = [Backend.premium, Backend.web] := by
  have hstore := core_grant_store sub
    ((truncatedTextOf (sanitizeText text)).length : Int) now hgrant
  unfold textToSpeech serveSynthesis
  rw [if_neg hne]
  simp [hgrant, hmiss, hstore, backendsInvoked]

/-- Witness for C1 amended: the concrete failing run of the counterexample
input, through the general theorem. -/
theorem vendorFailure_falls_back_billed_witness :
    (textToSpeech "hi" "v"
      (some { plan := Plan.pro, start_date := 0, end_date := none, tts_used := 7,
              tts_limit := 150000, is_active := true })
      0 [] (VendorOutcome.httpError 503)).1 = ServeResponse.vendorError 503 ∧
    ((textToSpeech "hi" "v"
      (some { plan := Plan.pro, start_date := 0, end_date := none, tts_used := 7,
              tts_limit := 150000, is_active := true })
      0 [] (VendorOutcome.httpError 503)).2.1.map Subscription.tts_used) =
      some (7 + (truncatedTextOf (sanitizeText "hi")).length) := by
  have h := vendorFailure_falls_back_billed "hi" "v"
    { plan := Plan.pro, start_date := 0, end_date := none, tts_used := 7,
      tts_limit := 150000, is_active := true } 0 503 []
    (by decide) (by decide) (by decide)
  exact ⟨h.1, h.2.1⟩

/-- C10: in the usage-tracking handler the quota check and increment run
before the audio-cache lookup, so a granted request always ends with
`tts_used` increased by the truncated, sanitized text length — whatever
the cache holds and whatever the vendor would answer — and when the key is
cached the response is served from the cache (with the already-incremented
usage reported). -/
theorem usage_tracked_before_cache (text voiceId : String) (sub : Subscription)
    (now : Int) (cache : ServerCache) (vendor : VendorOutcome)
    (hne : ¬ (sanitizeText text).length = 0)
    (hgrant : (checkAndTrackUsageCore sub
      ((truncatedTextOf (sanitizeText text)).length : Int) now).1.canUse = true) :
    ((textToSpeech text voiceId (some sub) now cache vendor).2.1.map
        Subscription.tts_used) =
      some (sub.tts_used + (truncatedTextOf (sanitizeText text)).length) ∧
    (∀ e, cacheLookup
        (getCacheKey (truncatedTextOf (sanitizeText text)) voiceId "simba-multilingual")
        (cleanCache now cache) = some e →
      (textToSpeech text voiceId (some sub) now cache vendor).1 =
        ServeResponse.audioOk e.audio true
          (checkAndTrackUsageCore sub
            ((truncatedTextOf (sanitizeText text)).length : Int) now).1.usageInfo) := by
  have hstore := core_grant_store sub
    ((truncatedTextOf (sanitizeText text)).length : Int) now hgrant
  constructor
  · unfold textToSpeech serveSynthesis
    rw [if_neg hne]
    rcases hc : cacheLookup
        (getCacheKey (truncatedTextOf (sanitizeText text)) voiceId "simba-multilingual")
        (cleanCache now cache) with _ | e
    · cases vendor <;> simp [hgrant, hc, hstore]
    · simp [hgrant, hc, hstore]
  · intro e he
    unfold textToSpeech serveSynthesis
    rw [if_neg hne]
    simp [hgrant, he]

/-- Witness for C10: with the audio for hello already cached, a granted
5-character request is served from the cache and still bills 5 characters. -/
theorem usage_tracked_before_cache_witness :
    ((textToSpeech "hello" "henry"
      (some { plan := Plan.pro, start_date := 0, end_date := none, tts_used := 0,
              tts_limit := 150000, is_active := true })
      0 [("simba-multilingual:henry:hello", { audio := "AUD", timestamp := 0 })]
      (VendorOutcome.ok "FRESH")).2.1.map Subscription.tts_used) =
      some (0 + (truncatedTextOf (sanitizeText "hello")).length) ∧
    (textToSpeech "hello" "henry"
      (some { plan := Plan.pro, start_date := 0, end_date := none, tts_used := 0,
              tts_limit := 150000, is_active := true })
      0 [("simba-multilingual:henry:hello", { audio := "AUD", timestamp := 0 })]
      (VendorOutcome.ok "FRESH")).1 =
      ServeResponse.audioOk "AUD" true
        (checkAndTrackUsageCore
          { plan := Plan.pro, start_date := 0, end_date := none, tts_used := 0,
            tts_limit := 150000, is_active := true }
          ((truncatedTextOf (sanitizeText "hello")).length : Int) 0).1.usageInfo := by
  have h := usage_tracked_before_cache "hello" "henry"
    { plan := Plan.pro, start_date := 0, end_date := none, tts_used := 0,
      tts_limit := 150000, is_active := true }
    0 [("simba-multilingual:henry:hello", { audio := "AUD", timestamp := 0 })]
    (VendorOutcome.ok "FRESH") (by decide) (by decide)
  exact ⟨h.1, h.2 { audio := "AUD", timestamp := 0 } (by decide)⟩

